import Mathlib

/-!
Verification of the durabledict persistence adapters (`modeldict/dict.py`):
`RedisDict` and `ModelDict`. Both adapters are embedded as pure state
transformers. The Redis hash for one keyspace and the relational row
collection are modelled as association lists from key strings to value
strings; the Redis `last_updated` counter key and the external cache
counter used by `ModelDict` are modelled as `Option Nat` (`none` when the
counter key does not exist in the backing store).
-/

namespace Durabledict

/-- First-match association-list lookup: models reading a Redis hash field
(`hget`) and looking a row up by its key column (`manager.get`). -/
def alookup : List (String × String) → String → Option String
  | [], _ => none
  | (k, v) :: rest, key => if k = key then some v else alookup rest key

/-- Store a value under a key, overwriting any existing binding: models the
Redis `hset` command and saving a row's value column. -/
def astore : List (String × String) → String → String → List (String × String)
  | [], key, v => [(key, v)]
  | (k, w) :: rest, key, v =>
    if k = key then (key, v) :: rest else (k, w) :: astore rest key v

/-- Remove every binding of a key: models the Redis `hdel` command and
deleting a row. Deleting an absent key is a no-op. -/
def adrop : List (String × String) → String → List (String × String)
  | [], _ => []
  | (k, w) :: rest, key =>
    if k = key then adrop rest key else (k, w) :: adrop rest key

/-- The Redis `hsetnx` command: store the value only if the field is absent. -/
def asetnx (l : List (String × String)) (key v : String) : List (String × String) :=
  match alookup l key with
  | some _ => l
  | none => astore l key v

/-- Python truthiness of an optional string default, as tested by
`elif default:` in `RedisDict._pop`: `None` and the empty string are falsy. -/
def truthy : Option String → Bool
  | none => false
  | some s => s ≠ ""

/-- The backing Redis store visible to one `RedisDict` keyspace: the hash
fields of the keyspace and the dedicated `keyspace + "last_updated"` counter
key (`none` when that key has never been written). -/
structure RedisState where
  hash : List (String × String)
  counter : Option Nat
deriving Repr, DecidableEq

/-- `int(conn.get(last_update_key) or 0)`: a missing counter key reads as 0. -/
def RedisDict.last_updated (s : RedisState) : Nat :=
  s.counter.getD 0

/-- The Redis `incr` command on the counter key: a missing key is created
at 0 and then incremented. -/
def counterIncr (c : Option Nat) : Option Nat :=
  some (c.getD 0 + 1)

/-- `RedisDict.__touch_last_updated`, executed once by `__init__`:
`conn.incr(last_update_key)`. -/
def RedisDict.touch_last_updated (s : RedisState) : RedisState :=
  { s with counter := counterIncr s.counter }

/-- `RedisDict.persist`: one MULTI block queueing `incr` of the counter key
and `hset` of the field, executed as a single indivisible unit. -/
def RedisDict.persist (s : RedisState) (key value : String) : RedisState :=
  { hash := astore s.hash key value, counter := counterIncr s.counter }

/-- `RedisDict.persist` with the outcome of the counter increment made
explicit. The MULTI pipeline is all-or-nothing: when the `incr` call fails,
`pipe.execute` is never reached and no queued command applies, so the error
carries the unchanged observable state (this is the behaviour exercised by
`test_persists_and_last_update_writes_are_atomic`). -/
def RedisDict.persistWith (incrOk : Bool) (s : RedisState) (key value : String) :
    Except RedisState RedisState :=
  if incrOk then Except.ok (RedisDict.persist s key value) else Except.error s

/-- `RedisDict.depersist`: one MULTI block queueing `incr` of the counter key
and `hdel` of the field. `hdel` of an absent field deletes nothing and raises
no error, so `depersist` always succeeds. -/
def RedisDict.depersist (s : RedisState) (key : String) : Except Unit RedisState :=
  Except.ok { hash := adrop s.hash key, counter := counterIncr s.counter }

/-- `RedisDict.persistents`: `hgetall` of the keyspace hash. -/
def RedisDict.persistents (s : RedisState) : List (String × String) :=
  s.hash

/-- `RedisDict._setdefault`: one MULTI block queueing `incr` of the counter
key, `hsetnx` of the field, and `hget` of the field; returns `results[-1]`,
the `hget` result read after the `hsetnx` applied. -/
def RedisDict.setdefault (s : RedisState) (key default : String) :
    RedisState × Option String :=
  let h := asetnx s.hash key default
  ({ hash := h, counter := counterIncr s.counter }, alookup h key)

/-- `RedisDict._pop`: one MULTI block queueing `incr`, `hget`, `hdel`; the
`hget` result is the stored value and the `hdel` count tells whether the key
existed. If it existed the value is returned; otherwise the default is
returned when truthy (`elif default:`), else `KeyError` is raised. The MULTI
block has executed either way, so the counter is always incremented and the
field always deleted. -/
def RedisDict.pop (s : RedisState) (key : String) (default : Option String) :
    RedisState × Except Unit String :=
  let value := alookup s.hash key
  let keyExisted := (alookup s.hash key).isSome
  let s1 : RedisState := { hash := adrop s.hash key, counter := counterIncr s.counter }
  (s1,
    if keyExisted then Except.ok (value.getD "")
    else if truthy default then Except.ok (default.getD "")
    else Except.error ())

/-- The backing store visible to one `ModelDict`: the row collection (key
column to value column) together with the value the external cache holds
under the `'last_updated'` cache key (`none` when that cache key is absent). -/
structure ModelState where
  rows : List (String × String)
  cacheCounter : Option Nat
deriving Repr, DecidableEq

/-- `cache.add(key, value)`: creates the key with the given value only if it
does not already exist. -/
def cacheAdd (c : Option Nat) (v : Nat) : Option Nat :=
  match c with
  | some n => some n
  | none => some v

/-- `cache.incr(key)`: atomically increments an existing cache value; a
missing key cannot be incremented and stays missing. -/
def cacheIncr (c : Option Nat) : Option Nat :=
  match c with
  | some n => some (n + 1)
  | none => none

/-- `ModelDict.last_updated`: `cache.get('last_updated')`. -/
def ModelDict.last_updated (s : ModelState) : Option Nat :=
  s.cacheCounter

/-- The counter effect of `ModelDict.__init__`:
`cache.add('last_updated', 1)`. -/
def ModelDict.init_counter (s : ModelState) : ModelState :=
  { s with cacheCounter := cacheAdd s.cacheCounter 1 }

/-- The database phase of `ModelDict.persist`, everything executed before
`__touch_last_updated`: `get_or_create` (which inserts the row with the new
value when no row matches the key column), then, when the row pre-existed
with a different value, `setattr` plus `instance.save()`. -/
def ModelDict.persistRowPhase (s : ModelState) (key val : String) : ModelState :=
  match alookup s.rows key with
  | none => { s with rows := astore s.rows key val }
  | some v => if v = val then s else { s with rows := astore s.rows key val }

/-- `ModelDict.persist`: the row phase followed unconditionally by
`__touch_last_updated` (`cache.incr('last_updated')`). The boolean records
whether a row write (the `get_or_create` insert or `instance.save()`) was
issued against the database. -/
def ModelDict.persist (s : ModelState) (key val : String) : ModelState × Bool :=
  match alookup s.rows key with
  | none =>
    ({ rows := astore s.rows key val, cacheCounter := cacheIncr s.cacheCounter }, true)
  | some v =>
    if v = val then ({ s with cacheCounter := cacheIncr s.cacheCounter }, false)
    else ({ rows := astore s.rows key val, cacheCounter := cacheIncr s.cacheCounter }, true)

/-- `ModelDict.persist` with the outcome of `cache.incr` made explicit. The
row phase runs first, as a separate database operation; when the increment
then fails, the error carries the observable state at that point: rows
already written, counter unchanged. -/
def ModelDict.persistWith (incrOk : Bool) (s : ModelState) (key val : String) :
    Except ModelState ModelState :=
  if incrOk then Except.ok (ModelDict.persist s key val).1
  else Except.error (ModelDict.persistRowPhase s key val)

/-- `ModelDict.depersist`: `manager.get(key_col=key)` raises `DoesNotExist`
when no row matches; otherwise the row is deleted and the counter touched. -/
def ModelDict.depersist (s : ModelState) (key : String) : Except Unit ModelState :=
  match alookup s.rows key with
  | none => Except.error ()
  | some _ =>
    Except.ok { rows := adrop s.rows key, cacheCounter := cacheIncr s.cacheCounter }

/-- `ModelDict.persistents`: `dict(manager.values_list(key_col, value_col))`. -/
def ModelDict.persistents (s : ModelState) : List (String × String) :=
  s.rows

/-- `ModelDict._setdefault`: `get_or_create` with the default as the value
for creation; `__touch_last_updated` runs only when a row was created; the
instance's value column is returned. -/
def ModelDict.setdefault (s : ModelState) (key default : String) :
    ModelState × String :=
  match alookup s.rows key with
  | none =>
    ({ rows := astore s.rows key default, cacheCounter := cacheIncr s.cacheCounter },
      default)
  | some v => (s, v)

/-- `ModelDict._pop`: look the row up by key column; if found, capture the
value column, delete the row, touch the counter, return the value. On
`DoesNotExist`, return the default when it is not `None` (`if default is not
None:`), else raise `KeyError`; the store is untouched in that branch. -/
def ModelDict.pop (s : ModelState) (key : String) (default : Option String) :
    ModelState × Except Unit String :=
  match alookup s.rows key with
  | some v =>
    ({ rows := adrop s.rows key, cacheCounter := cacheIncr s.cacheCounter }, Except.ok v)
  | none =>
    (s,
      match default with
      | some d => Except.ok d
      | none => Except.error ())

/-! ### Association-list lemmas -/

theorem alookup_astore_self (l : List (String × String)) (key v : String) :
    alookup (astore l key v) key = some v := by
  induction l with
  | nil => simp [astore, alookup]
  | cons p rest ih =>
    obtain ⟨k, w⟩ := p
    by_cases h : k = key
    · simp [astore, h, alookup]
    · simp [astore, h, alookup, ih]

theorem alookup_astore_ne (l : List (String × String)) (key v k : String)
    (h : k ≠ key) : alookup (astore l key v) k = alookup l k := by
  induction l with
  | nil => simp [astore, alookup, Ne.symm h]
  | cons p rest ih =>
    obtain ⟨kk, w⟩ := p
    by_cases hk : kk = key
    · subst hk
      simp [astore, alookup, Ne.symm h]
    · simp [astore, alookup, hk, ih]

theorem alookup_adrop_self (l : List (String × String)) (key : String) :
    alookup (adrop l key) key = none := by
  induction l with
  | nil => simp [adrop, alookup]
  | cons p rest ih =>
    obtain ⟨k, w⟩ := p
    by_cases h : k = key <;> simp [adrop, h, alookup, ih]

theorem adrop_of_absent (l : List (String × String)) (key : String)
    (h : alookup l key = none) : adrop l key = l := by
  induction l with
  | nil => rfl
  | cons p rest ih =>
    obtain ⟨k, w⟩ := p
    by_cases hk : k = key
    · simp [alookup, hk] at h
    · simp only [alookup, if_neg hk] at h
      simp [adrop, hk, ih h]

theorem persist_cacheCounter (s : ModelState) (key val : String) :
    (ModelDict.persist s key val).1.cacheCounter = cacheIncr s.cacheCounter := by
  cases h : alookup s.rows key
  · simp [ModelDict.persist, h]
  · rename_i v
    by_cases hv : v = val <;> simp [ModelDict.persist, h, hv]

theorem persistRowPhase_cacheCounter (s : ModelState) (key val : String) :
    (ModelDict.persistRowPhase s key val).cacheCounter = s.cacheCounter := by
  cases h : alookup s.rows key
  · simp [ModelDict.persistRowPhase, h]
  · rename_i v
    by_cases hv : v = val <;> simp [ModelDict.persistRowPhase, h, hv]

theorem persistRowPhase_visible (s : ModelState) (key val : String) :
    alookup (ModelDict.persistRowPhase s key val).rows key = some val := by
  cases h : alookup s.rows key
  · simp [ModelDict.persistRowPhase, h, alookup_astore_self]
  · rename_i v
    by_cases hv : v = val
    · subst hv
      simp [ModelDict.persistRowPhase, h]
    · simp [ModelDict.persistRowPhase, h, hv, alookup_astore_self]

/-! ### Claims -/

/-- C1: counterexample. Starting from an empty row collection with the cache
counter at 1, a `ModelDict.persist "a" "1"` whose cache increment fails leaves
an observable state in which the value is stored under `"a"` while the
counter is still 1: the data write is visible although the stamp increment
was not confirmed, contradicting the claimed all-or-nothing guarantee for
every adapter. -/
theorem C1_counterexample :
    ModelDict.persistWith false { rows := [], cacheCounter := some 1 } "a" "1"
      = Except.error { rows := [("a", "1")], cacheCounter := some 1 }
    ∧ alookup [("a", "1")] "a" = some "1"
    ∧ ModelDict.last_updated { rows := [("a", "1")], cacheCounter := some 1 }
        = ModelDict.last_updated { rows := [], cacheCounter := some 1 } :=
  ⟨rfl, rfl, rfl⟩

/-- C1 (amended): `RedisDict.persist` is all-or-nothing — when the counter
increment cannot be confirmed the MULTI block does not execute and the
observable state is exactly the pre-call state, so neither the data write
nor the increment is visible. `ModelDict.persist`, in contrast, issues the
row write before the counter increment as separate operations, so when the
increment fails the stored value for the key is already visible while
`last_updated` is unchanged. -/
theorem C1_persist_failure_effects :
    (∀ (s : RedisState) (key value : String) (e : RedisState),
      RedisDict.persistWith false s key value = Except.error e → e = s)
    ∧ (∀ (s : ModelState) (key val : String) (e : ModelState),
      ModelDict.persistWith false s key val = Except.error e →
        alookup e.rows key = some val ∧ e.cacheCounter = s.cacheCounter) := by
  constructor
  · intro s key value e h
    simp only [RedisDict.persistWith, if_neg (Bool.false_ne_true), reduceIte] at h
    exact (Except.error.injEq _ _).mp h.symm ▸ rfl
  · intro s key val e h
    simp only [ModelDict.persistWith, reduceIte] at h
    have he : e = ModelDict.persistRowPhase s key val :=
      ((Except.error.injEq _ _).mp h).symm
    subst he
    exact ⟨persistRowPhase_visible s key val, persistRowPhase_cacheCounter s key val⟩

/-- C1: witness for the amended theorem, instantiated at a concrete failed
`ModelDict.persist` and a concrete failed `RedisDict.persist`. -/
theorem C1_persist_failure_effects_witness :
    (({ hash := [("x", "y")], counter := some 3 } : RedisState)
        = { hash := [("x", "y")], counter := some 3 })
    ∧ (alookup ({ rows := [("a", "1")], cacheCounter := some 1 } : ModelState).rows "a"
        = some "1"
      ∧ ({ rows := [("a", "1")], cacheCounter := some 1 } : ModelState).cacheCounter
        = ({ rows := [], cacheCounter := some 1 } : ModelState).cacheCounter) :=
  ⟨C1_persist_failure_effects.1 { hash := [("x", "y")], counter := some 3 } "a" "1"
      { hash := [("x", "y")], counter := some 3 } rfl,
    C1_persist_failure_effects.2 { rows := [], cacheCounter := some 1 } "a" "1"
      { rows := [("a", "1")], cacheCounter := some 1 } rfl⟩

/-- C2: evaluation of the code at the failing input. With the key `"k"`
already stored (value `"v"`) and the counter at 1, `RedisDict._setdefault`
bumps the counter to 2 even though no insertion occurs, and a second call
bumps it to 3 — the stamp rises by 2 across two `setdefault` calls on an
existing key, where the claim (and the TODO above `RedisDict._setdefault`)
requires at most one bump. `ModelDict._setdefault` on the same input leaves
the state, counter included, unchanged. -/
theorem C2_redis_setdefault_always_bumps :
    alookup [("k", "v")] "k" = some "v"
    ∧ RedisDict.setdefault { hash := [("k", "v")], counter := some 1 } "k" "d"
        = ({ hash := [("k", "v")], counter := some 2 }, some "v")
    ∧ (RedisDict.setdefault
        (RedisDict.setdefault { hash := [("k", "v")], counter := some 1 } "k" "d").1
        "k" "d").1.counter = some 3
    ∧ ModelDict.setdefault { rows := [("k", "v")], cacheCounter := some 1 } "k" "d"
        = ({ rows := [("k", "v")], cacheCounter := some 1 }, "v") :=
  ⟨rfl, rfl, rfl, rfl⟩

/-- C3: counterexample. With an empty hash and the counter at 1, popping the
absent key `"k"` with the (truthy) default `"d"` supplied does return the
default, but the counter moves from 1 to 2: `RedisDict._pop` runs its MULTI
block — counter increment included — even when the key is absent, so the
Version Stamp is altered, contrary to the claim. -/
theorem C3_counterexample :
    RedisDict.pop { hash := [], counter := some 1 } "k" (some "d")
      = ({ hash := [], counter := some 2 }, Except.ok "d")
    ∧ RedisDict.last_updated { hash := [], counter := some 2 }
        ≠ RedisDict.last_updated { hash := [], counter := some 1 } := by
  exact ⟨rfl, by decide⟩

/-- C3 (amended): `ModelDict._pop` on an absent key behaves as claimed — a
non-`None` default is returned with the store and stamp untouched, and with
no default a `KeyError` is raised, again leaving the state unchanged.
`RedisDict._pop` on an absent key leaves the hash unchanged but always
increments the counter, and it returns the default only when the default is
truthy (non-`None` and non-empty), raising `KeyError` otherwise. -/
theorem C3_absent_pop :
    (∀ (s : ModelState) (key d : String), alookup s.rows key = none →
      ModelDict.pop s key (some d) = (s, Except.ok d)
      ∧ ModelDict.pop s key none = (s, Except.error ()))
    ∧ (∀ (s : RedisState) (key : String) (default : Option String),
        alookup s.hash key = none →
        RedisDict.pop s key default
          = ({ hash := s.hash, counter := counterIncr s.counter },
             if truthy default then Except.ok (default.getD "")
             else Except.error ())) := by
  constructor
  · intro s key d h
    constructor <;> simp [ModelDict.pop, h]
  · intro s key default h
    simp [RedisDict.pop, h, adrop_of_absent s.hash key h]

/-- C3: witness for the amended theorem at concrete absent-key pops. -/
theorem C3_absent_pop_witness :
    (ModelDict.pop { rows := [], cacheCounter := some 1 } "k" (some "d")
        = ({ rows := [], cacheCounter := some 1 }, Except.ok "d")
      ∧ ModelDict.pop { rows := [], cacheCounter := some 1 } "k" none
        = ({ rows := [], cacheCounter := some 1 }, Except.error ()))
    ∧ RedisDict.pop { hash := [], counter := some 5 } "k" (some "d")
        = ({ hash := [], counter := counterIncr (some 5) },
           if truthy (some "d") then Except.ok ((some "d").getD "")
           else Except.error ()) :=
  ⟨C3_absent_pop.1 { rows := [], cacheCounter := some 1 } "k" "d" rfl,
   C3_absent_pop.2 { hash := [], counter := some 5 } "k" (some "d") rfl⟩

/-- C4: counterexample. Deleting the absent key `"k"` from an empty
`RedisDict` keyspace does not fail: `hdel` of a missing field is a silent
no-op inside the MULTI block, so `depersist` succeeds (and still bumps the
counter), contradicting the claim that depersisting a missing key fails with
the not-found error for every adapter. -/
theorem C4_counterexample :
    RedisDict.depersist { hash := [], counter := some 1 } "k"
      = Except.ok { hash := [], counter := some 2 }
    ∧ alookup ([] : List (String × String)) "k" = none :=
  ⟨rfl, rfl⟩

/-- C4 (amended): `ModelDict.depersist` fails with the not-found error on an
absent key, and after a successful `depersist` of a key a second `depersist`
of the same key fails with not-found. `RedisDict.depersist`, however, always
succeeds — on an absent key it deletes nothing and still increments the
counter — so a second delete of the same key does not fail there. -/
theorem C4_depersist_absent :
    (∀ (s : ModelState) (key : String), alookup s.rows key = none →
      ModelDict.depersist s key = Except.error ())
    ∧ (∀ (s : ModelState) (key : String) (s' : ModelState),
        ModelDict.depersist s key = Except.ok s' →
        ModelDict.depersist s' key = Except.error ())
    ∧ (∀ (s : RedisState) (key : String),
        RedisDict.depersist s key
          = Except.ok { hash := adrop s.hash key, counter := counterIncr s.counter }) := by
  refine ⟨?_, ?_, ?_⟩
  · intro s key h
    simp [ModelDict.depersist, h]
  · intro s key s' h
    cases hl : alookup s.rows key with
    | none => simp [ModelDict.depersist, hl] at h
    | some v =>
      simp only [ModelDict.depersist, hl, Except.ok.injEq] at h
      subst h
      simp [ModelDict.depersist, alookup_adrop_self]
  · intro s key
    rfl

/-- C4: witness for the amended theorem at concrete states. -/
theorem C4_depersist_absent_witness :
    ModelDict.depersist { rows := [], cacheCounter := some 1 } "k" = Except.error ()
    ∧ ModelDict.depersist { rows := [], cacheCounter := some 2 } "k" = Except.error ()
    ∧ RedisDict.depersist { hash := [], counter := some 1 } "k"
        = Except.ok { hash := adrop [] "k", counter := counterIncr (some 1) } :=
  ⟨C4_depersist_absent.1 { rows := [], cacheCounter := some 1 } "k" rfl,
   C4_depersist_absent.2.1 { rows := [("k", "v")], cacheCounter := some 1 } "k"
      { rows := [], cacheCounter := some 2 } rfl,
   C4_depersist_absent.2.2 { hash := [], counter := some 1 } "k"⟩

/-- C5: the Version Stamp never decreases under any adapter operation, and
every successful write strictly increases `last_updated` by exactly 1:
`RedisDict.persist`, successful `RedisDict.depersist`, `ModelDict.persist`
and successful `ModelDict.depersist` each raise the stamp from `n` to
`n + 1`, while `setdefault` and `pop` never lower it. -/
theorem C5_stamp_monotone :
    (∀ (s : RedisState) (key value : String),
      RedisDict.last_updated (RedisDict.persist s key value)
        = RedisDict.last_updated s + 1)
    ∧ (∀ (s : RedisState) (key : String) (s' : RedisState),
        RedisDict.depersist s key = Except.ok s' →
        RedisDict.last_updated s' = RedisDict.last_updated s + 1)
    ∧ (∀ (s : ModelState) (key val : String) (n : Nat), s.cacheCounter = some n →
        ModelDict.last_updated (ModelDict.persist s key val).1 = some (n + 1))
    ∧ (∀ (s : ModelState) (key : String) (s' : ModelState) (n : Nat),
        s.cacheCounter = some n → ModelDict.depersist s key = Except.ok s' →
        ModelDict.last_updated s' = some (n + 1))
    ∧ (∀ (s : RedisState) (key d : String),
        RedisDict.last_updated s
          ≤ RedisDict.last_updated (RedisDict.setdefault s key d).1)
    ∧ (∀ (s : RedisState) (key : String) (default : Option String),
        RedisDict.last_updated s
          ≤ RedisDict.last_updated (RedisDict.pop s key default).1)
    ∧ (∀ (s : ModelState) (key d : String) (n : Nat), s.cacheCounter = some n →
        ∃ m, ModelDict.last_updated (ModelDict.setdefault s key d).1 = some m ∧ n ≤ m)
    ∧ (∀ (s : ModelState) (key : String) (default : Option String) (n : Nat),
        s.cacheCounter = some n →
        ∃ m, ModelDict.last_updated (ModelDict.pop s key default).1 = some m ∧ n ≤ m) := by
  refine ⟨?_, ?_, ?_, ?_, ?_, ?_, ?_, ?_⟩
  · intro s key value
    rfl
  · intro s key s' h
    simp only [RedisDict.depersist, Except.ok.injEq] at h
    subst h
    rfl
  · intro s key val n h
    show (ModelDict.persist s key val).1.cacheCounter = some (n + 1)
    rw [persist_cacheCounter, h]
    rfl
  · intro s key s' n hc h
    cases hl : alookup s.rows key with
    | none => simp [ModelDict.depersist, hl] at h
    | some v =>
      simp only [ModelDict.depersist, hl, Except.ok.injEq] at h
      subst h
      show cacheIncr s.cacheCounter = some (n + 1)
      rw [hc]
      rfl
  · intro s key d
    exact Nat.le_succ _
  · intro s key default
    exact Nat.le_succ _
  · intro s key d n h
    cases hl : alookup s.rows key with
    | none =>
      refine ⟨n + 1, ?_, Nat.le_succ n⟩
      show (ModelDict.setdefault s key d).1.cacheCounter = some (n + 1)
      simp [ModelDict.setdefault, hl, h, cacheIncr]
    | some v =>
      refine ⟨n, ?_, Nat.le_refl n⟩
      show (ModelDict.setdefault s key d).1.cacheCounter = some n
      simp [ModelDict.setdefault, hl, h]
  · intro s key default n h
    cases hl : alookup s.rows key with
    | none =>
      refine ⟨n, ?_, Nat.le_refl n⟩
      show (ModelDict.pop s key default).1.cacheCounter = some n
      simp [ModelDict.pop, hl, h]
    | some v =>
      refine ⟨n + 1, ?_, Nat.le_succ n⟩
      show (ModelDict.pop s key default).1.cacheCounter = some (n + 1)
      simp [ModelDict.pop, hl, h, cacheIncr]

/-- C5: witness, discharging the hypotheses of the strict-increase conjuncts
at concrete states. -/
theorem C5_stamp_monotone_witness :
    RedisDict.last_updated { hash := [], counter := some 2 }
        = RedisDict.last_updated { hash := [("a", "1")], counter := some 1 } + 1
    ∧ ModelDict.last_updated
        (ModelDict.persist { rows := [], cacheCounter := some 1 } "a" "1").1 = some 2
    ∧ ModelDict.last_updated { rows := [], cacheCounter := some 2 } = some 2 :=
  ⟨C5_stamp_monotone.2.1 { hash := [("a", "1")], counter := some 1 } "a"
      { hash := [], counter := some 2 } rfl,
   C5_stamp_monotone.2.2.1 { rows := [], cacheCounter := some 1 } "a" "1" 1 rfl,
   C5_stamp_monotone.2.2.2.1 { rows := [("a", "1")], cacheCounter := some 1 } "a"
      { rows := [], cacheCounter := some 2 } 1 rfl rfl⟩

/-- C6: for both adapters, `setdefault` inserts the default only when the
key is absent and returns the resulting value — the default after an
insertion, the pre-existing stored value otherwise — and never overwrites a
pre-existing value. -/
theorem C6_setdefault_semantics :
    (∀ (s : RedisState) (key d : String), alookup s.hash key = none →
      (RedisDict.setdefault s key d).2 = some d
      ∧ alookup (RedisDict.setdefault s key d).1.hash key = some d)
    ∧ (∀ (s : RedisState) (key d v : String), alookup s.hash key = some v →
      (RedisDict.setdefault s key d).2 = some v
      ∧ (RedisDict.setdefault s key d).1.hash = s.hash)
    ∧ (∀ (s : ModelState) (key d : String), alookup s.rows key = none →
      ModelDict.setdefault s key d
        = ({ rows := astore s.rows key d, cacheCounter := cacheIncr s.cacheCounter }, d)
      ∧ alookup (astore s.rows key d) key = some d)
    ∧ (∀ (s : ModelState) (key d v : String), alookup s.rows key = some v →
      ModelDict.setdefault s key d = (s, v)) := by
  refine ⟨?_, ?_, ?_, ?_⟩
  · intro s key d h
    constructor <;> simp [RedisDict.setdefault, asetnx, h, alookup_astore_self]
  · intro s key d v h
    constructor <;> simp [RedisDict.setdefault, asetnx, h]
  · intro s key d h
    exact ⟨by simp [ModelDict.setdefault, h], alookup_astore_self _ _ _⟩
  · intro s key d v h
    simp [ModelDict.setdefault, h]

/-- C6: witness, covering the absent-key and present-key cases of both
adapters at concrete states. -/
theorem C6_setdefault_semantics_witness :
    ((RedisDict.setdefault { hash := [], counter := some 1 } "k" "d").2 = some "d"
      ∧ alookup
          (RedisDict.setdefault { hash := [], counter := some 1 } "k" "d").1.hash "k"
          = some "d")
    ∧ ((RedisDict.setdefault { hash := [("k", "v")], counter := some 1 } "k" "d").2
        = some "v"
      ∧ (RedisDict.setdefault { hash := [("k", "v")], counter := some 1 } "k" "d").1.hash
        = [("k", "v")])
    ∧ (ModelDict.setdefault { rows := [], cacheCounter := some 1 } "k" "d"
        = ({ rows := astore [] "k" "d", cacheCounter := cacheIncr (some 1) }, "d")
      ∧ alookup (astore [] "k" "d") "k" = some "d")
    ∧ ModelDict.setdefault { rows := [("k", "v")], cacheCounter := some 1 } "k" "d"
        = ({ rows := [("k", "v")], cacheCounter := some 1 }, "v") :=
  ⟨C6_setdefault_semantics.1 { hash := [], counter := some 1 } "k" "d" rfl,
   C6_setdefault_semantics.2.1 { hash := [("k", "v")], counter := some 1 } "k" "d" "v" rfl,
   C6_setdefault_semantics.2.2.1 { rows := [], cacheCounter := some 1 } "k" "d" rfl,
   C6_setdefault_semantics.2.2.2 { rows := [("k", "v")], cacheCounter := some 1 }
     "k" "d" "v" rfl⟩

/-- C7: for both adapters, popping a key that is present returns its stored
value, removes the entry — the key is gone from the `persistents()`
enumeration afterwards — and bumps the Version Stamp by 1. -/
theorem C7_pop_present :
    (∀ (s : RedisState) (key v : String) (default : Option String),
      alookup s.hash key = some v →
      (RedisDict.pop s key default).2 = Except.ok v
      ∧ alookup (RedisDict.persistents (RedisDict.pop s key default).1) key = none
      ∧ RedisDict.last_updated (RedisDict.pop s key default).1
          = RedisDict.last_updated s + 1)
    ∧ (∀ (s : ModelState) (key v : String) (default : Option String) (n : Nat),
      alookup s.rows key = some v → s.cacheCounter = some n →
      (ModelDict.pop s key default).2 = Except.ok v
      ∧ alookup (ModelDict.persistents (ModelDict.pop s key default).1) key = none
      ∧ ModelDict.last_updated (ModelDict.pop s key default).1 = some (n + 1)) := by
  constructor
  · intro s key v default h
    refine ⟨?_, ?_, rfl⟩
    · simp [RedisDict.pop, h]
    · exact alookup_adrop_self s.hash key
  · intro s key v default n h hc
    refine ⟨?_, ?_, ?_⟩
    · simp [ModelDict.pop, h]
    · simp [ModelDict.pop, ModelDict.persistents, h, alookup_adrop_self]
    · simp [ModelDict.pop, ModelDict.last_updated, h, hc, cacheIncr]

/-- C7: witness at a concrete present key for both adapters. -/
theorem C7_pop_present_witness :
    ((RedisDict.pop { hash := [("k", "v")], counter := some 1 } "k" none).2
        = Except.ok "v"
      ∧ alookup
          (RedisDict.persistents
            (RedisDict.pop { hash := [("k", "v")], counter := some 1 } "k" none).1) "k"
          = none
      ∧ RedisDict.last_updated
          (RedisDict.pop { hash := [("k", "v")], counter := some 1 } "k" none).1
          = RedisDict.last_updated { hash := [("k", "v")], counter := some 1 } + 1)
    ∧ ((ModelDict.pop { rows := [("k", "v")], cacheCounter := some 1 } "k" none).2
        = Except.ok "v"
      ∧ alookup
          (ModelDict.persistents
            (ModelDict.pop { rows := [("k", "v")], cacheCounter := some 1 } "k" none).1)
          "k" = none
      ∧ ModelDict.last_updated
          (ModelDict.pop { rows := [("k", "v")], cacheCounter := some 1 } "k" none).1
          = some 2) :=
  ⟨C7_pop_present.1 { hash := [("k", "v")], counter := some 1 } "k" "v" none rfl,
   C7_pop_present.2 { rows := [("k", "v")], cacheCounter := some 1 } "k" "v" none 1
     rfl rfl⟩

/-- C8: `ModelDict.persist` finds or creates a row by the key column; the
stored value for the key afterwards is the new value; the counter is
incremented unconditionally; when a row with an equal value already existed,
no row write is issued and the rows are untouched; a missing row or a row
with a differing value causes a row write; other keys are unaffected. -/
theorem C8_model_persist_semantics :
    ∀ (s : ModelState) (key val : String),
      alookup (ModelDict.persist s key val).1.rows key = some val
      ∧ (ModelDict.persist s key val).1.cacheCounter = cacheIncr s.cacheCounter
      ∧ (alookup s.rows key = some val →
          ModelDict.persist s key val
            = ({ rows := s.rows, cacheCounter := cacheIncr s.cacheCounter }, false))
      ∧ (alookup s.rows key = none → (ModelDict.persist s key val).2 = true)
      ∧ (∀ v, alookup s.rows key = some v → v ≠ val →
          (ModelDict.persist s key val).2 = true
          ∧ (ModelDict.persist s key val).1.rows = astore s.rows key val)
      ∧ (∀ k, k ≠ key →
          alookup (ModelDict.persist s key val).1.rows k = alookup s.rows k) := by
  intro s key val
  refine ⟨?_, persist_cacheCounter s key val, ?_, ?_, ?_, ?_⟩
  · cases h : alookup s.rows key with
    | none => simp [ModelDict.persist, h, alookup_astore_self]
    | some v =>
      by_cases hv : v = val
      · subst hv
        simp [ModelDict.persist, h]
      · simp [ModelDict.persist, h, hv, alookup_astore_self]
  · intro h
    simp [ModelDict.persist, h]
  · intro h
    simp [ModelDict.persist, h]
  · intro v h hv
    constructor <;> simp [ModelDict.persist, h, hv]
  · intro k hk
    cases h : alookup s.rows key with
    | none => simp [ModelDict.persist, h, alookup_astore_ne _ _ _ _ hk]
    | some v =>
      by_cases hv : v = val
      · simp [ModelDict.persist, h, hv]
      · simp [ModelDict.persist, h, hv, alookup_astore_ne _ _ _ _ hk]

/-- C8: witness, discharging the equal-value, missing-row and
differing-value hypotheses at concrete states. -/
theorem C8_model_persist_semantics_witness :
    ModelDict.persist { rows := [("k", "a")], cacheCounter := some 1 } "k" "a"
      = ({ rows := [("k", "a")], cacheCounter := cacheIncr (some 1) }, false)
    ∧ (ModelDict.persist { rows := [], cacheCounter := some 1 } "k" "a").2 = true
    ∧ (ModelDict.persist { rows := [("k", "b")], cacheCounter := some 1 } "k" "a").2
        = true :=
  ⟨(C8_model_persist_semantics { rows := [("k", "a")], cacheCounter := some 1 }
      "k" "a").2.2.1 rfl,
   (C8_model_persist_semantics { rows := [], cacheCounter := some 1 }
      "k" "a").2.2.2.1 rfl,
   ((C8_model_persist_semantics { rows := [("k", "b")], cacheCounter := some 1 }
      "k" "a").2.2.2.2.1 "b" rfl (by decide)).1⟩

/-- C9: for both adapters, constructing a dictionary bound to a
previously-unseen keyspace — the counter key absent from the backing store —
leaves `last_updated()` at exactly 1: the Redis `incr` issued by `__init__`
creates the counter at 0 and increments it, and `cache.add('last_updated', 1)`
creates the cache value at 1. -/
theorem C9_initial_stamp_one :
    (∀ (s : RedisState), s.counter = none →
      RedisDict.last_updated (RedisDict.touch_last_updated s) = 1)
    ∧ (∀ (s : ModelState), s.cacheCounter = none →
      ModelDict.last_updated (ModelDict.init_counter s) = some 1) := by
  constructor
  · intro s h
    simp [RedisDict.touch_last_updated, RedisDict.last_updated, counterIncr, h]
  · intro s h
    simp [ModelDict.init_counter, ModelDict.last_updated, cacheAdd, h]

/-- C9: witness at concrete fresh stores. -/
theorem C9_initial_stamp_one_witness :
    RedisDict.last_updated
        (RedisDict.touch_last_updated { hash := [], counter := none }) = 1
    ∧ ModelDict.last_updated
        (ModelDict.init_counter { rows := [], cacheCounter := none }) = some 1 :=
  ⟨C9_initial_stamp_one.1 { hash := [], counter := none } rfl,
   C9_initial_stamp_one.2 { rows := [], cacheCounter := none } rfl⟩

/-- C10: counterexample. The empty string is a non-`None` default on which
the two adapters disagree for an absent key: `RedisDict._pop` tests the
default with Python truthiness (`elif default:`) and raises `KeyError`,
while `ModelDict._pop` tests `default is not None` and returns the empty
string. -/
theorem C10_counterexample :
    (RedisDict.pop { hash := [], counter := some 1 } "k" (some "")).2
      = Except.error ()
    ∧ (ModelDict.pop { rows := [], cacheCounter := some 1 } "k" (some "")).2
        = Except.ok ""
    ∧ alookup ({ hash := [], counter := some 1 } : RedisState).hash "k" = none
    ∧ alookup ({ rows := [], cacheCounter := some 1 } : ModelState).rows "k" = none :=
  ⟨rfl, rfl, rfl, rfl⟩

/-- C10 (amended): the two adapters' absent-key pop outcomes agree for every
non-empty default — both return the default rather than raising — but they
diverge on the empty-string default, which `ModelDict` returns and
`RedisDict` rejects with `KeyError`. -/
theorem C10_absent_pop_agreement :
    ∀ (s : RedisState) (t : ModelState) (key d : String), d ≠ "" →
      alookup s.hash key = none → alookup t.rows key = none →
      (RedisDict.pop s key (some d)).2 = Except.ok d
      ∧ (ModelDict.pop t key (some d)).2 = Except.ok d := by
  intro s t key d hd hs ht
  constructor
  · simp [RedisDict.pop, hs, truthy, hd]
  · simp [ModelDict.pop, ht]

/-- C10: witness for the amended agreement at a concrete non-empty default. -/
theorem C10_absent_pop_agreement_witness :
    (RedisDict.pop { hash := [], counter := some 1 } "k" (some "d")).2 = Except.ok "d"
    ∧ (ModelDict.pop { rows := [], cacheCounter := some 3 } "k" (some "d")).2
        = Except.ok "d" :=
  C10_absent_pop_agreement { hash := [], counter := some 1 }
    { rows := [], cacheCounter := some 3 } "k" "d" (by decide) rfl rfl

end Durabledict
